import Mathlib

/-!
Shallow embedding of the Facebook comment-reply webhook (src/api/index.py).

The program is a single Flask handler `facebook_webhook_handler` plus two
helpers, `get_gemini_response` (Reply Generator) and `post_facebook_reply`
(Platform Poster).  The handler's GET branch is a pure function of the
configured verify token and the two query parameters.  The POST branch walks
the parsed JSON payload; we model the payload as optional-field structures
(Python's `dict.get` returning `None` / a supplied default becomes `Option`
with `Option.getD`), and model the two outbound collaborators as function
parameters.  A `WebhookTrace` records every invocation of the generator and
the poster, in order, so that theorems can speak about which collaborator was
called with which arguments.
-/

/-- Shape of `item_value.get("from", {})`: a dict holding the commenting
user's id under key `"id"` (absent key gives `None`). -/
structure FromField where
  id : Option String
deriving DecidableEq, Repr

/-- Python's `.get("from", {})` default: an empty dict, whose `.get("id")`
yields `None`. -/
instance : Inhabited FromField :=
  ⟨{ id := none }⟩

/-- Shape of `change.get("value", {})` for a feed change. -/
structure ChangeValue where
  item : Option String
  comment_id : Option String
  message : Option String
  from_ : Option FromField
deriving DecidableEq, Repr

/-- Python's `.get("value", {})` default: an empty dict, all keys absent. -/
instance : Inhabited ChangeValue :=
  ⟨{ item := none, comment_id := none, message := none, from_ := none }⟩

/-- One element of `entry.get("changes", [])`. -/
structure Change where
  field : Option String
  value : Option ChangeValue
deriving DecidableEq, Repr

/-- One element of `data.get("entry", [])`. -/
structure Entry where
  id : Option String
  changes : List Change
deriving DecidableEq, Repr

/-- The parsed POST body (`data = request.get_json()`). -/
structure NotificationPayload where
  object : Option String
  entry : List Entry
deriving DecidableEq, Repr

/-- Record of the side-effecting collaborator calls the handler performed:
the argument of each `get_gemini_response` call and the `(comment_id,
message)` arguments of each `post_facebook_reply` call, in order. -/
structure WebhookTrace where
  genCalls : List String
  postCalls : List (Option String × String)
deriving DecidableEq, Repr

/-- Result of one `gemini_model.generate_content(prompt)` call: either a
response whose `.text` is `text`, or a raised exception. -/
inductive GenerateResult where
  | ok (text : String)
  | exn
deriving DecidableEq, Repr

/-- Fallback returned by `get_gemini_response` when `gemini_model` is falsy
(initialization failed at import time). -/
def fallback_model_missing : String :=
  "Lo siento, estoy teniendo problemas técnicos en este momento."

/-- Fallback returned by `get_gemini_response` when
`gemini_model.generate_content` raises. -/
def fallback_api_error : String :=
  "Lo siento, no pude procesar tu solicitud con la IA en este momento."

/-- Embedding of `get_gemini_response(user_comment_text, ...)`.  The
`gemini_model` global is `none` when `genai` configuration failed, otherwise
`some` of the composition of the fixed prompt template with
`generate_content` (the prompt is a fixed string template around
`user_comment_text`; no claim depends on its exact text, so the composed
function is taken as the parameter and applied to `user_comment_text`
directly).  The `page_name` and `page_description` parameters only feed that
same template and are elided likewise. -/
def get_gemini_response (gemini_model : Option (String → GenerateResult))
    (user_comment_text : String) : String :=
  match gemini_model with
  | none => fallback_model_missing
  | some generate_content =>
    match generate_content user_comment_text with
    | GenerateResult.ok t => t
    | GenerateResult.exn => fallback_api_error

/-- Embedding of the GET branch of `facebook_webhook_handler`:
`verify_token = request.args.get(...)`, compared with the configured
`FB_VERIFY_TOKEN`; on match the challenge query parameter is echoed with
status 200, otherwise a fixed 403.  Both the challenge and the configured
token come from `.get` and may be absent.  When the token matches but the
challenge is absent, the source executes `make_response(None, 200)`, which
raises `TypeError` inside Flask and the client receives Flask's 500 error
page instead of a 200; that path is modelled as status 500 with no
application-defined body (`none`). -/
def facebook_webhook_handler_get (fb_verify_token : Option String)
    (verify_token : Option String) (challenge : Option String) :
    Nat × Option String :=
  if verify_token = fb_verify_token then
    match challenge with
    | some c => (200, some c)
    | none => (500, none)
  else
    (403, some "Error, token de verificación incorrecto")

/-- Embedding of Python's `str.isspace()` for a single character: true
exactly on the code points CPython treats as whitespace (the ASCII
whitespace and separator controls 0x09-0x0d, 0x1c-0x1f, space, NEL 0x85,
NBSP 0xa0, and the Unicode Zs/Zl/Zp space characters).  Lean's
`Char.isWhitespace` covers only a strict subset of this set, so it is not
used. -/
def pyIsSpace (c : Char) : Bool :=
  let n := c.toNat
  (0x09 ≤ n && n ≤ 0x0d) || (0x1c ≤ n && n ≤ 0x1f) || n = 0x20 ||
  n = 0x85 || n = 0xa0 || n = 0x1680 || (0x2000 ≤ n && n ≤ 0x200a) ||
  n = 0x2028 || n = 0x2029 || n = 0x202f || n = 0x205f || n = 0x3000

/-- Embedding of Python's `str.strip()`: drop `pyIsSpace` characters from
both ends of the string.  (Written by structural recursion over the
character list so that it evaluates inside the kernel; `String.trim` does
not reduce definitionally and trims fewer characters than Python.) -/
def pyStrip (s : String) : String :=
  String.mk
    (((s.data.dropWhile pyIsSpace).reverse.dropWhile pyIsSpace).reverse)

/-- Embedding of the body of the innermost loop of the POST branch: handle
one `change` of one `entry`.  Returns the updated trace and `some response`
when a `return make_response(...)` fires (the two guards), `none` when the
loop continues.  `gen` is `get_gemini_response` (with its configuration
applied) and `post` is `post_facebook_reply` (its success flag is only
logged by the source, so only the call itself is recorded). -/
def processChange (gen : String → String) (post : Option String → String → Bool)
    (page_id_from_event : Option String) (change : Change) (tr : WebhookTrace) :
    WebhookTrace × Option (Nat × String) :=
  if change.field = some "feed" then
    let item_value := change.value.getD default
    if item_value.item = some "comment" then
      let comment_id := item_value.comment_id
      let user_message := pyStrip (item_value.message.getD "")
      let sender_id := (item_value.from_.getD default).id
      if sender_id = page_id_from_event then
        (tr, some (200, "EVENT_RECEIVED_FROM_PAGE_ITSELF"))
      else if user_message = "" then
        (tr, some (200, "EVENT_RECEIVED_EMPTY_COMMENT"))
      else
        let ai_response := gen user_message
        let tr1 : WebhookTrace :=
          { tr with genCalls := tr.genCalls ++ [user_message] }
        if ai_response = "" then
          (tr1, none)
        else
          let _success := post comment_id ai_response
          ({ tr1 with postCalls := tr1.postCalls ++ [(comment_id, ai_response)] },
            none)
    else
      (tr, none)
  else
    (tr, none)

/-- The `for change in entry.get("changes", [])` loop, threading the trace
and propagating an early `return`. -/
def processChanges (gen : String → String) (post : Option String → String → Bool)
    (page_id_from_event : Option String) :
    List Change → WebhookTrace → WebhookTrace × Option (Nat × String)
  | [], tr => (tr, none)
  | c :: cs, tr =>
    match processChange gen post page_id_from_event c tr with
    | (tr1, some r) => (tr1, some r)
    | (tr1, none) => processChanges gen post page_id_from_event cs tr1

/-- The `for entry in data.get("entry", [])` loop; each entry supplies
`page_id_from_event = entry.get("id")`. -/
def processEntries (gen : String → String) (post : Option String → String → Bool) :
    List Entry → WebhookTrace → WebhookTrace × Option (Nat × String)
  | [], tr => (tr, none)
  | e :: es, tr =>
    match processChanges gen post e.id e.changes tr with
    | (tr1, some r) => (tr1, some r)
    | (tr1, none) => processEntries gen post es tr1

/-- Embedding of the POST branch of `facebook_webhook_handler`: if the
top-level `object` is `"page"`, run the nested loops; an early `return`
yields its response, otherwise (and for non-"page" objects) the final
`make_response("EVENT_RECEIVED", 200)` fires. -/
def facebook_webhook_handler_post (gen : String → String)
    (post : Option String → String → Bool) (data : NotificationPayload) :
    WebhookTrace × (Nat × String) :=
  if data.object = some "page" then
    match processEntries gen post data.entry { genCalls := [], postCalls := [] } with
    | (tr, some r) => (tr, r)
    | (tr, none) => (tr, (200, "EVENT_RECEIVED"))
  else
    ({ genCalls := [], postCalls := [] }, (200, "EVENT_RECEIVED"))

/-- Test fixture: a payload with a single entry holding a single qualifying
comment change. -/
def singleCommentPayload (pid sid cid : Option String) (msg : Option String) :
    NotificationPayload :=
  { object := some "page",
    entry := [{ id := pid,
                changes := [{ field := some "feed",
                              value := some { item := some "comment",
                                              comment_id := cid,
                                              message := msg,
                                              from_ := some { id := sid } } }] }] }

/-! ## Helper lemmas -/

/-- Every early return from the change loop carries status 200. -/
theorem processChange_status_200 (gen : String → String)
    (post : Option String → String → Bool) (pid : Option String)
    (c : Change) (tr tr1 : WebhookTrace) (r : Nat × String)
    (h : processChange gen post pid c tr = (tr1, some r)) : r.1 = 200 := by
  unfold processChange at h
  simp only [] at h
  split at h
  · split at h
    · split at h
      · simp only [Prod.mk.injEq, Option.some.injEq] at h
        rw [← h.2]
      · split at h
        · simp only [Prod.mk.injEq, Option.some.injEq] at h
          rw [← h.2]
        · split at h
          · simp at h
          · simp at h
    · simp at h
  · simp at h

/-- Every early return from the changes loop carries status 200. -/
theorem processChanges_status_200 (gen : String → String)
    (post : Option String → String → Bool) (pid : Option String) :
    ∀ (cs : List Change) (tr tr1 : WebhookTrace) (r : Nat × String),
      processChanges gen post pid cs tr = (tr1, some r) → r.1 = 200 := by
  intro cs
  induction cs with
  | nil =>
    intro tr tr1 r h
    simp [processChanges] at h
  | cons c cs ih =>
    intro tr tr1 r h
    unfold processChanges at h
    cases hc : processChange gen post pid c tr with
    | mk tr2 o =>
      cases o with
      | some r2 =>
        rw [hc] at h
        simp only [Prod.mk.injEq, Option.some.injEq] at h
        exact h.2 ▸ processChange_status_200 gen post pid c tr tr2 r2 hc
      | none =>
        rw [hc] at h
        exact ih tr2 tr1 r h

/-- Every early return from the entries loop carries status 200. -/
theorem processEntries_status_200 (gen : String → String)
    (post : Option String → String → Bool) :
    ∀ (es : List Entry) (tr tr1 : WebhookTrace) (r : Nat × String),
      processEntries gen post es tr = (tr1, some r) → r.1 = 200 := by
  intro es
  induction es with
  | nil =>
    intro tr tr1 r h
    simp [processEntries] at h
  | cons e es ih =>
    intro tr tr1 r h
    unfold processEntries at h
    cases hc : processChanges gen post e.id e.changes tr with
    | mk tr2 o =>
      cases o with
      | some r2 =>
        rw [hc] at h
        simp only [Prod.mk.injEq, Option.some.injEq] at h
        exact h.2 ▸ processChanges_status_200 gen post e.id e.changes tr tr2 r2 hc
      | none =>
        rw [hc] at h
        exact ih tr2 tr1 r h

/-! ## Claim theorems -/

/-- C1: For every well-formed notification delivery (any parsed
`NotificationPayload`) and any behavior of the Reply Generator and the
Platform Poster, the POST branch of the handler responds with status 200; it
never responds with a non-200 status on this path. -/
theorem webhook_post_always_200 (gen : String → String)
    (post : Option String → String → Bool) (data : NotificationPayload) :
    (facebook_webhook_handler_post gen post data).2.1 = 200 := by
  unfold facebook_webhook_handler_post
  split
  · cases he : processEntries gen post data.entry { genCalls := [], postCalls := [] } with
    | mk tr o =>
      cases o with
      | some r =>
        simp only [he]
        exact processEntries_status_200 gen post data.entry _ tr r he
      | none =>
        simp only [he]
  · rfl

/-- C2: For every verification (GET) request carrying a challenge string, if
the supplied verify-token equals the configured secret the handler responds
200 with body exactly the supplied challenge, unchanged; otherwise it
responds 403 with a fixed error body.  (The challenge is quantified as a
supplied string: with the challenge parameter absent the source instead
raises inside `make_response(None, 200)` and the client receives a 500.) -/
theorem verification_token_contract (secret token : Option String)
    (challenge : String) :
    (token = secret →
      facebook_webhook_handler_get secret token (some challenge)
        = (200, some challenge)) ∧
    (token ≠ secret →
      facebook_webhook_handler_get secret token (some challenge) =
        (403, some "Error, token de verificación incorrecto")) := by
  constructor
  · intro h
    simp [facebook_webhook_handler_get, h]
  · intro h
    simp [facebook_webhook_handler_get, h]

/-- Witness for C2 at a concrete secret, token and challenge. -/
theorem verification_token_contract_witness :
    facebook_webhook_handler_get (some "secreto") (some "secreto") (some "abc123") =
      (200, some "abc123") ∧
    facebook_webhook_handler_get (some "secreto") (some "otro") (some "abc123") =
      (403, some "Error, token de verificación incorrecto") :=
  ⟨(verification_token_contract (some "secreto") (some "secreto") "abc123").1 rfl,
   (verification_token_contract (some "secreto") (some "otro") "abc123").2 (by decide)⟩

/-- C9: If the configured verify-token secret is absent (`None`) and the GET
request omits the verify-token parameter, the equality check passes
(absent = absent) and, for every supplied challenge string, the handler
responds 200 echoing the challenge: the handshake succeeds without any
secret being presented. -/
theorem absent_secret_handshake_succeeds (challenge : String) :
    facebook_webhook_handler_get none none (some challenge)
      = (200, some challenge) := by
  simp [facebook_webhook_handler_get]

/-- C3: A delivery whose first encountered qualifying comment event has
`senderId = pageId` makes the handler return 200
("EVENT_RECEIVED_FROM_PAGE_ITSELF") immediately, with no generator or poster
invocation recorded, and with the result independent of all later changes in
the same entry and all later entries (which are universally quantified). -/
theorem self_reply_guard_short_circuits (gen : String → String)
    (post : Option String → String → Bool) (pid cid : Option String)
    (msg : Option String) (rest : List Change) (others : List Entry) :
    facebook_webhook_handler_post gen post
      { object := some "page",
        entry := { id := pid,
                   changes := { field := some "feed",
                                value := some { item := some "comment",
                                                comment_id := cid,
                                                message := msg,
                                                from_ := some { id := pid } } } :: rest } :: others }
      = ({ genCalls := [], postCalls := [] },
         (200, "EVENT_RECEIVED_FROM_PAGE_ITSELF")) := by
  simp [facebook_webhook_handler_post, processEntries, processChanges, processChange]

/-- C5: A delivery whose first encountered qualifying comment event has an
empty-after-trimming message (and a sender other than the page) makes the
handler return 200 ("EVENT_RECEIVED_EMPTY_COMMENT") immediately, with no
generator or poster invocation recorded, and with the result independent of
all later changes and entries (universally quantified), the same early-return
scope as the self-reply guard. -/
theorem empty_message_guard_short_circuits (gen : String → String)
    (post : Option String → String → Bool) (pid sid cid : Option String)
    (msg : String) (rest : List Change) (others : List Entry)
    (hsender : sid ≠ pid) (hmsg : pyStrip msg = "") :
    facebook_webhook_handler_post gen post
      { object := some "page",
        entry := { id := pid,
                   changes := { field := some "feed",
                                value := some { item := some "comment",
                                                comment_id := cid,
                                                message := some msg,
                                                from_ := some { id := sid } } } :: rest } :: others }
      = ({ genCalls := [], postCalls := [] },
         (200, "EVENT_RECEIVED_EMPTY_COMMENT")) := by
  simp [facebook_webhook_handler_post, processEntries, processChanges, processChange,
    hsender, hmsg]

/-- Witness for C5 at a concrete whitespace-only comment followed by nothing. -/
theorem empty_message_guard_short_circuits_witness :
    facebook_webhook_handler_post (fun _ => "respuesta") (fun _ _ => true)
      { object := some "page",
        entry := [{ id := some "pagina",
                    changes := [{ field := some "feed",
                                  value := some { item := some "comment",
                                                  comment_id := some "c1",
                                                  message := some "   ",
                                                  from_ := some { id := some "usuario" } } }] }] }
      = ({ genCalls := [], postCalls := [] },
         (200, "EVENT_RECEIVED_EMPTY_COMMENT")) :=
  empty_message_guard_short_circuits (fun _ => "respuesta") (fun _ _ => true)
    (some "pagina") (some "usuario") (some "c1") "   " [] [] (by decide) (by decide)

/-- C6: Any POST delivery whose top-level `object` is not `"page"` yields 200
with body "EVENT_RECEIVED" and an empty trace: neither the Reply Generator
nor the Platform Poster is invoked. -/
theorem non_page_object_ignored (gen : String → String)
    (post : Option String → String → Bool) (data : NotificationPayload)
    (h : data.object ≠ some "page") :
    facebook_webhook_handler_post gen post data
      = ({ genCalls := [], postCalls := [] }, (200, "EVENT_RECEIVED")) := by
  simp [facebook_webhook_handler_post, h]

/-- Witness for C6: a non-"page" payload that even carries a valid comment is
acknowledged without any collaborator call. -/
theorem non_page_object_ignored_witness :
    facebook_webhook_handler_post (fun _ => "respuesta") (fun _ _ => true)
      { object := some "user",
        entry := [{ id := some "pagina",
                    changes := [{ field := some "feed",
                                  value := some { item := some "comment",
                                                  comment_id := some "c1",
                                                  message := some "hola",
                                                  from_ := some { id := some "usuario" } } }] }] }
      = ({ genCalls := [], postCalls := [] }, (200, "EVENT_RECEIVED")) :=
  non_page_object_ignored (fun _ => "respuesta") (fun _ _ => true) _ (by decide)

/-- C7: For every model state and every input, `get_gemini_response` returns
either the text generated by the service call or one of the two fixed
apologetic fallback strings; a service failure is never propagated to the
caller (the function is total into `String`). -/
theorem generator_never_propagates_failure
    (gemini_model : Option (String → GenerateResult)) (text : String) :
    (∃ g t, gemini_model = some g ∧ g text = GenerateResult.ok t ∧
      get_gemini_response gemini_model text = t) ∨
    get_gemini_response gemini_model text = fallback_model_missing ∨
    get_gemini_response gemini_model text = fallback_api_error := by
  cases gemini_model with
  | none =>
    right
    left
    rfl
  | some g =>
    cases hg : g text with
    | ok t =>
      left
      exact ⟨g, t, rfl, hg, by simp [get_gemini_response, hg]⟩
    | exn =>
      right
      right
      simp [get_gemini_response, hg]

/-- C8: Missing fields default to empty/absent rather than failing the
request: a missing `object` falls through to acknowledgment; a feed change
with a missing `value` defaults to an empty dict, so its item type is absent
and the change is skipped; a comment with a missing `message` defaults to the
empty string and hits the empty guard; a comment with both `from` and the
entry `id` missing compares absent = absent and hits the self-reply guard.
In every case the handler produces a 200 response instead of failing. -/
theorem malformed_payload_defaults (gen : String → String)
    (post : Option String → String → Bool) :
    (∀ es : List Entry,
      facebook_webhook_handler_post gen post { object := none, entry := es }
        = ({ genCalls := [], postCalls := [] }, (200, "EVENT_RECEIVED"))) ∧
    (∀ (pid : Option String) (tr : WebhookTrace),
      processChange gen post pid { field := some "feed", value := none } tr
        = (tr, none)) ∧
    (∀ (p : String) (cid : Option String) (tr : WebhookTrace),
      processChange gen post (some p)
        { field := some "feed",
          value := some { item := some "comment", comment_id := cid,
                          message := none, from_ := some { id := none } } } tr
        = (tr, some (200, "EVENT_RECEIVED_EMPTY_COMMENT"))) ∧
    (∀ (cid : Option String) (tr : WebhookTrace),
      processChange gen post none
        { field := some "feed",
          value := some { item := some "comment", comment_id := cid,
                          message := none, from_ := none } } tr
        = (tr, some (200, "EVENT_RECEIVED_FROM_PAGE_ITSELF"))) :=
  ⟨fun _ => rfl, fun _ _ => rfl, fun _ _ _ => rfl, fun _ _ => rfl⟩

/-- Helper: running the handler on a single qualifying comment event with a
non-self sender and a non-empty stripped message calls the generator once and
then posts exactly when the generated reply is non-empty. -/
theorem qualifying_comment_run (gen : String → String)
    (post : Option String → String → Bool) (pid sid cid : Option String)
    (msg : String) (hsender : sid ≠ pid) (hmsg : pyStrip msg ≠ "") :
    facebook_webhook_handler_post gen post (singleCommentPayload pid sid cid (some msg)) =
      ((if gen (pyStrip msg) = "" then
          { genCalls := [pyStrip msg], postCalls := [] }
        else
          { genCalls := [pyStrip msg], postCalls := [(cid, gen (pyStrip msg))] }),
       (200, "EVENT_RECEIVED")) := by
  by_cases hg : gen (pyStrip msg) = ""
  · rw [if_pos hg]
    simp [singleCommentPayload, facebook_webhook_handler_post, processEntries,
      processChanges, processChange, hsender, hmsg, hg]
  · rw [if_neg hg]
    simp [singleCommentPayload, facebook_webhook_handler_post, processEntries,
      processChanges, processChange, hsender, hmsg, hg]

/-- C4: For every qualifying comment event with a non-empty stripped message
and a sender other than the page, the handler invokes the generator with that
(stripped) message text; if the generator returns non-empty text the poster
is invoked with exactly that comment's id and the returned text (and with
nothing when the text is empty); and the response is 200 regardless of the
poster's success or failure (the poster `post` is arbitrary and its result
unused). -/
theorem qualifying_comment_generates_and_posts (gen : String → String)
    (post : Option String → String → Bool) (pid sid cid : Option String)
    (msg : String) (hsender : sid ≠ pid) (hmsg : pyStrip msg ≠ "") :
    (facebook_webhook_handler_post gen post
        (singleCommentPayload pid sid cid (some msg))).1.genCalls = [pyStrip msg] ∧
    (gen (pyStrip msg) ≠ "" →
      (facebook_webhook_handler_post gen post
          (singleCommentPayload pid sid cid (some msg))).1.postCalls
        = [(cid, gen (pyStrip msg))]) ∧
    (gen (pyStrip msg) = "" →
      (facebook_webhook_handler_post gen post
          (singleCommentPayload pid sid cid (some msg))).1.postCalls = []) ∧
    (facebook_webhook_handler_post gen post
        (singleCommentPayload pid sid cid (some msg))).2 = (200, "EVENT_RECEIVED") := by
  have h := qualifying_comment_run gen post pid sid cid msg hsender hmsg
  refine ⟨?_, ?_, ?_, ?_⟩
  · rw [h]
    split <;> rfl
  · intro hne
    rw [h, if_neg hne]
  · intro he
    rw [h, if_pos he]
  · rw [h]

/-- Witness for C4 at a concrete comment "hola", a generator answering
"gracias" and a poster that reports failure. -/
theorem qualifying_comment_generates_and_posts_witness :
    (facebook_webhook_handler_post (fun _ => "gracias") (fun _ _ => false)
        (singleCommentPayload (some "pagina") (some "usuario") (some "c1")
          (some "hola"))).1.genCalls = ["hola"] ∧
    (facebook_webhook_handler_post (fun _ => "gracias") (fun _ _ => false)
        (singleCommentPayload (some "pagina") (some "usuario") (some "c1")
          (some "hola"))).1.postCalls = [(some "c1", "gracias")] ∧
    (facebook_webhook_handler_post (fun _ => "gracias") (fun _ _ => false)
        (singleCommentPayload (some "pagina") (some "usuario") (some "c1")
          (some "hola"))).2 = (200, "EVENT_RECEIVED") := by
  have h := qualifying_comment_generates_and_posts (fun _ => "gracias") (fun _ _ => false)
    (some "pagina") (some "usuario") (some "c1") "hola" (by decide) (by decide)
  exact ⟨h.1.trans (by decide), (h.2.1 (by decide)).trans (by decide), h.2.2.2⟩

/-- C10: For every qualifying comment event with a non-empty stripped message
and a sender other than the page, if the generative service fails (the model
was never initialized, or `generate_content` raises on this input), the
handler still posts: the fallback apology string is non-empty, passes the
non-empty-reply check, and is handed to the Platform Poster for that
comment's id. -/
theorem generator_failure_posts_fallback (post : Option String → String → Bool)
    (pid sid cid : Option String) (msg : String)
    (gemini_model : Option (String → GenerateResult))
    (hsender : sid ≠ pid) (hmsg : pyStrip msg ≠ "")
    (hfail : gemini_model = none ∨
      ∃ g, gemini_model = some g ∧ g (pyStrip msg) = GenerateResult.exn) :
    ∃ r, (r = fallback_model_missing ∨ r = fallback_api_error) ∧ r ≠ "" ∧
      facebook_webhook_handler_post (get_gemini_response gemini_model) post
          (singleCommentPayload pid sid cid (some msg))
        = ({ genCalls := [pyStrip msg], postCalls := [(cid, r)] },
           (200, "EVENT_RECEIVED")) := by
  have hrun := qualifying_comment_run (get_gemini_response gemini_model) post
    pid sid cid msg hsender hmsg
  rcases hfail with h | ⟨g, hg, hx⟩
  · refine ⟨fallback_model_missing, Or.inl rfl, by decide, ?_⟩
    have hv : get_gemini_response gemini_model (pyStrip msg) = fallback_model_missing := by
      rw [h]
      rfl
    rw [hrun, hv, if_neg (by decide : ¬(fallback_model_missing = ""))]
  · refine ⟨fallback_api_error, Or.inr rfl, by decide, ?_⟩
    have hv : get_gemini_response gemini_model (pyStrip msg) = fallback_api_error := by
      rw [hg]
      simp [get_gemini_response, hx]
    rw [hrun, hv, if_neg (by decide : ¬(fallback_api_error = ""))]

/-- Witness for C10: uninitialized model, concrete comment "hola"; the first
fallback string is posted. -/
theorem generator_failure_posts_fallback_witness :
    ∃ r, (r = fallback_model_missing ∨ r = fallback_api_error) ∧ r ≠ "" ∧
      facebook_webhook_handler_post (get_gemini_response none) (fun _ _ => true)
          (singleCommentPayload (some "pagina") (some "usuario") (some "c1")
            (some "hola"))
        = ({ genCalls := [pyStrip "hola"], postCalls := [(some "c1", r)] },
           (200, "EVENT_RECEIVED")) :=
  generator_failure_posts_fallback (fun _ _ => true) (some "pagina") (some "usuario")
    (some "c1") "hola" none (by decide) (by decide) (Or.inl rfl)
